import Mathlib

/-!
Shallow embedding of the dynamic-schema core of the DBMS_LAB_PROJECT Flask
backend (`flask_backend/app/models.py` and `flask_backend/app/services/`):
the EAV value codec (`FieldValue.get_value` / `FieldValue.set_value`), the
validation engine, the schema manager mutations, schema version control
(diff / rollback), the metadata catalog cache, and the impact analyzer.

Python rows become Lean structures, the database becomes an explicit `DB`
state threaded through the operations, `datetime.utcnow` becomes an explicit
clock argument (seconds as `Int`), and raised exceptions become
`Except String`.  Python values crossing the codec boundary are modelled by
the closed type `PyVal`.
-/

/-- Opaque structured (JSON-serializable) data; the codec stores and returns
it unchanged and never inspects it, so it is identified by an id.  `truthy`
records its Python truthiness (e.g. non-emptiness of a list/dict). -/
structure PyObj where
  id : Nat
  truthy : Bool := true
deriving DecidableEq, Repr

/-- A Python `datetime`.  The codec only observes a datetime through
`isoformat()`, which is injective on datetimes, so a datetime is identified
by its ISO-8601 text. -/
structure PyDateTime where
  iso : String
deriving DecidableEq, Repr

/-- A Python value crossing the EAV codec boundary. -/
inductive PyVal where
  | null : PyVal
  | str (s : String) : PyVal
  | int (n : Int) : PyVal
  | float (q : Rat) : PyVal
  | bool (b : Bool) : PyVal
  | date (d : PyDateTime) : PyVal
  | obj (o : PyObj) : PyVal
deriving DecidableEq, Repr

/-- Modelled from the spec: the Python builtin `int(str)` (external to the
repository).  Accepts optional surrounding spaces, an optional sign and a
non-empty digit string; anything else (e.g. non-numeric text) raises
`ValueError`. -/
def parseIntStr (s : String) : Option Int :=
  let t := (s.toList.dropWhile (· = ' ')).reverse.dropWhile (· = ' ') |>.reverse
  let (neg, ds) :=
    match t with
    | '-' :: rest => (true, rest)
    | '+' :: rest => (false, rest)
    | rest => (false, rest)
  if ds ≠ [] ∧ ds.all Char.isDigit then
    let n : Nat := ds.foldl (fun acc c => acc * 10 + (c.toNat - '0'.toNat)) 0
    some (if neg then -(n : Int) else (n : Int))
  else
    none

/-- Modelled from the spec: the Python builtin `float(str)` (external to the
repository), restricted to plain decimal literals: optional sign, digits,
optional fractional part.  Anything else raises `ValueError`. -/
def parseFloatStr (s : String) : Option Rat :=
  let t := (s.toList.dropWhile (· = ' ')).reverse.dropWhile (· = ' ') |>.reverse
  let (neg, ds) :=
    match t with
    | '-' :: rest => (true, rest)
    | '+' :: rest => (false, rest)
    | rest => (false, rest)
  let intPart := ds.takeWhile Char.isDigit
  let rest := ds.drop intPart.length
  let digitsVal : List Char → Nat :=
    fun l => l.foldl (fun acc c => acc * 10 + (c.toNat - '0'.toNat)) 0
  let build (ip fp : List Char) : Option Rat :=
    if ip = [] ∧ fp = [] then none
    else
      let mag : Rat := (digitsVal ip : Rat) + (digitsVal fp : Rat) / ((10 : Rat) ^ fp.length)
      some (if neg then -mag else mag)
  match rest with
  | [] => build intPart []
  | '.' :: fracPart =>
      if fracPart.all Char.isDigit then build intPart fracPart else none
  | _ => none

/-- Truncation toward zero, the behavior of Python `int(float)`. -/
def pyTrunc (q : Rat) : Int :=
  if 0 ≤ q then ⌊q⌋ else ⌈q⌉

/-- The Python builtin cast `int(value)`: identity on ints, truncation on
floats, 0/1 on bools, decimal parse on strings; `TypeError` on `None`,
datetimes and structured data. -/
def pyInt : PyVal → Except String Int
  | .int n => .ok n
  | .float q => .ok (pyTrunc q)
  | .bool b => .ok (if b then 1 else 0)
  | .str s =>
      match parseIntStr s with
      | some n => .ok n
      | none => .error ("ValueError: invalid literal for int() with base 10: " ++ s)
  | .null => .error ("TypeError: int() argument must not be None")
  | .date _ => .error ("TypeError: int() argument must not be a datetime")
  | .obj _ => .error ("TypeError: int() argument must not be structured data")

/-- The Python builtin cast `float(value)`. -/
def pyFloat : PyVal → Except String Rat
  | .float q => .ok q
  | .int n => .ok (n : Rat)
  | .bool b => .ok (if b then 1 else 0)
  | .str s =>
      match parseFloatStr s with
      | some q => .ok q
      | none => .error ("ValueError: could not convert string to float: " ++ s)
  | .null => .error ("TypeError: float() argument must not be None")
  | .date _ => .error ("TypeError: float() argument must not be a datetime")
  | .obj _ => .error ("TypeError: float() argument must not be structured data")

/-- The Python builtin cast `bool(value)`: total, it never raises. -/
def pyBool : PyVal → Bool
  | .null => false
  | .str s => s ≠ ""
  | .int n => n ≠ 0
  | .float q => q ≠ 0
  | .bool b => b
  | .date _ => true
  | .obj o => o.truthy

/-- The Python builtin `str(value)`.  Only the string case is observed by the
claims; the renderings of the other cases model Python's `str` well enough to
be total and injective per constructor. -/
def pyStrOf : PyVal → String
  | .str s => s
  | .int n => toString n
  | .float q => toString q
  | .bool b => if b then ("True") else ("False")
  | .date d => d.iso
  | .obj o => "<structured:" ++ toString o.id ++ ">"
  | .null => "None"

/-- Character test used by the ISO-date shape check below. -/
def isoDateShape (s : String) : Bool :=
  let cs := s.toList
  decide (cs.length = 10) &&
    (cs.take 4).all Char.isDigit &&
    decide (cs.get? 4 = some '-') &&
    ((cs.drop 5).take 2).all Char.isDigit &&
    decide (cs.get? 7 = some '-') &&
    (cs.drop 8).all Char.isDigit

/-- Modelled from the spec: `dateutil.parser.parse` (external library) —
"parse textual input into a timestamp".  We model the ISO `YYYY-MM-DD`
fragment: such text parses to the datetime whose `isoformat()` is the text
followed by midnight; other text raises a parser error. -/
def parseDate (s : String) : Except String PyDateTime :=
  if isoDateShape s then .ok ⟨s ++ "T00:00:00"⟩
  else .error ("ParserError: Unknown string format: " ++ s)

/-- One EAV cell: `FieldValue` row from `models.py`, with its six alternative
typed slots.  The `value_json` column stores arbitrary JSON-serializable
Python data, hence `Option PyVal`. -/
structure FieldValue where
  record_id : Nat
  schema_field_id : Nat
  value_text : Option String := none
  value_int : Option Int := none
  value_float : Option Rat := none
  value_bool : Option Bool := none
  value_date : Option PyDateTime := none
  value_json : Option PyVal := none
deriving DecidableEq, Repr

/-- All six slots cleared, as at the start of `set_value`. -/
def FieldValue.cleared (v : FieldValue) : FieldValue :=
  { v with value_text := none, value_int := none, value_float := none,
           value_bool := none, value_date := none, value_json := none }

/-- Embeds `FieldValue.get_value` from `models.py`: read the slot selected by the
owning field's current type (`field_type` is the owning `SchemaField`'s type
string).  Dates are emitted as ISO-8601 text; an unsupported type tag falls
through to `None`. -/
def FieldValue.get_value (v : FieldValue) (field_type : String) : PyVal :=
  if field_type = "string" then
    match v.value_text with | some s => .str s | none => .null
  else if field_type = "integer" then
    match v.value_int with | some n => .int n | none => .null
  else if field_type = "float" then
    match v.value_float with | some q => .float q | none => .null
  else if field_type = "boolean" then
    match v.value_bool with | some b => .bool b | none => .null
  else if field_type = "date" then
    match v.value_date with | some d => .str d.iso | none => .null
  else if field_type = "json" ∨ field_type = "array" ∨ field_type = "object" then
    match v.value_json with | some j => j | none => .null
  else
    .null

/-- Embeds `FieldValue.set_value` from `models.py`: clear all slots, then store the
value into the slot selected by the owning field's type, coercing with the
Python builtin casts.  The returned pair is (raised exception message if any,
state of the row afterwards) — on a coercion error the slots have already
been cleared when the exception is raised.  A non-string non-datetime value
under type `date` is assigned to the `DateTime` column, which only admits
datetimes when the row is persisted; we surface that as the error. -/
def FieldValue.set_value (v : FieldValue) (field_type : String) (value : PyVal) :
    Option String × FieldValue :=
  let c := v.cleared
  match value with
  | .null => (none, c)
  | _ =>
    if field_type = "string" then
      (none, { c with value_text := some (pyStrOf value) })
    else if field_type = "integer" then
      match pyInt value with
      | .ok n => (none, { c with value_int := some n })
      | .error e => (some e, c)
    else if field_type = "float" then
      match pyFloat value with
      | .ok q => (none, { c with value_float := some q })
      | .error e => (some e, c)
    else if field_type = "boolean" then
      (none, { c with value_bool := some (pyBool value) })
    else if field_type = "date" then
      match value with
      | .str s =>
          match parseDate s with
          | .ok d => (none, { c with value_date := some d })
          | .error e => (some e, c)
      | .date d => (none, { c with value_date := some d })
      | _ => (some ("StatementError: DateTime column requires a datetime"), c)
    else if field_type = "json" ∨ field_type = "array" ∨ field_type = "object" then
      (none, { c with value_json := some value })
    else
      (none, c)

/-- The `SUPPORTED_TYPES` list of `ValidationEngine`. -/
def SUPPORTED_TYPES : List String :=
  ["string", "integer", "float", "boolean", "date", "json", "array", "object"]

/-- Whether the slot that `get_value` would read for this type tag is empty. -/
def FieldValue.selectedSlotEmpty (v : FieldValue) (field_type : String) : Prop :=
  (field_type = "string" → v.value_text = none) ∧
  (field_type = "integer" → v.value_int = none) ∧
  (field_type = "float" → v.value_float = none) ∧
  (field_type = "boolean" → v.value_bool = none) ∧
  (field_type = "date" → v.value_date = none) ∧
  (field_type = "json" ∨ field_type = "array" ∨ field_type = "object" →
    v.value_json = none)

instance (v : FieldValue) (t : String) : Decidable (v.selectedSlotEmpty t) := by
  unfold FieldValue.selectedSlotEmpty
  infer_instance

/-- Structured field constraints (`constraints` JSON column):
min/max, length bounds, regex, enum, as validated by `_validate_constraints`.
A key being present in the Python dict is `isSome` here. -/
structure Constraints where
  min : Option Int := none
  max : Option Int := none
  min_length : Option Nat := none
  max_length : Option Nat := none
  regex : Option String := none
  enum : Option (List String) := none
deriving DecidableEq, Repr

/-- A `SchemaField` row from `models.py`. -/
structure SchemaField where
  id : Nat
  schema_id : Nat
  field_name : String
  field_type : String
  is_required : Bool := false
  default_value : Option String := none
  constraints : Option Constraints := none
  description : Option String := none
  is_deleted : Bool := false
  order_index : Int := 0
deriving DecidableEq, Repr

/-- A `SchemaModel` row (the scalar columns read by the modelled
operations). -/
structure SchemaModel where
  id : Nat
  name : String
  version : Int := 1
  asset_type_id : Nat
  allow_additional_fields : Bool := true
deriving DecidableEq, Repr

/-- One field entry of a schema snapshot, as built by
`SchemaManager._get_schema_snapshot` / `SchemaVersionControl._build_snapshot`. -/
structure SnapField where
  id : Nat
  name : String
  type : String
  required : Bool
  default : Option String
  constraints : Option Constraints
  description : Option String
  order : Int
  deleted : Bool
deriving DecidableEq, Repr

/-- A schema snapshot (the `timestamp` entry is never read back and is
omitted). -/
structure Snapshot where
  schema_id : Nat
  name : String
  fields : List SnapField
deriving DecidableEq, Repr

/-- A `SchemaVersion` row. -/
structure SchemaVersion where
  schema_id : Nat
  version_number : Int
  schema_snapshot : Snapshot
  change_summary : String := ""
deriving DecidableEq, Repr

/-- A `ChangeLog` row (the columns the claims observe). -/
structure ChangeLog where
  schema_id : Nat
  change_type : String
  description : String
  changed_by : Nat
deriving DecidableEq, Repr

/-- A `MetadataRecord` row (only its linkage columns are read by the
modelled operations). -/
structure MetadataRecord where
  id : Nat
  schema_id : Nat
deriving DecidableEq, Repr

/-- The relational state threaded through the operations. -/
structure DB where
  schemas : List SchemaModel := []
  fields : List SchemaField := []
  records : List MetadataRecord := []
  field_values : List FieldValue := []
  versions : List SchemaVersion := []
  change_logs : List ChangeLog := []
deriving DecidableEq, Repr

/-- Embeds `SchemaModel.query.get(schema_id)`. -/
def DB.getSchema (db : DB) (schema_id : Nat) : Option SchemaModel :=
  db.schemas.find? (fun s => s.id = schema_id)

/-- Embeds `SchemaField.query.filter_by(schema_id=…, field_name=…, is_deleted=False).first()`. -/
def DB.findActiveField (db : DB) (schema_id : Nat) (field_name : String) :
    Option SchemaField :=
  db.fields.find? (fun f =>
    f.schema_id = schema_id ∧ f.field_name = field_name ∧ f.is_deleted = false)

/-- Embeds `SchemaField.query.filter_by(schema_id=…, field_name=…, is_deleted=True).first()`. -/
def DB.findDeletedField (db : DB) (schema_id : Nat) (field_name : String) :
    Option SchemaField :=
  db.fields.find? (fun f =>
    f.schema_id = schema_id ∧ f.field_name = field_name ∧ f.is_deleted = true)

/-- Embeds `schema.fields`: the field rows of one schema, in table order. -/
def DB.schemaFields (db : DB) (schema_id : Nat) : List SchemaField :=
  db.fields.filter (fun f => f.schema_id = schema_id)

/-- Embeds `SchemaVersion.query.filter_by(schema_id=…, version_number=…).first()`. -/
def DB.findVersion (db : DB) (schema_id : Nat) (version_number : Int) :
    Option SchemaVersion :=
  db.versions.find? (fun v =>
    v.schema_id = schema_id ∧ v.version_number = version_number)

/-- Embeds `SchemaVersion.query.filter_by(schema_id=…).order_by(version_number.desc()).first()`. -/
def DB.latestVersion (db : DB) (schema_id : Nat) : Option SchemaVersion :=
  (db.versions.filter (fun v => v.schema_id = schema_id)).foldl
    (fun acc v =>
      match acc with
      | none => some v
      | some best => if v.version_number > best.version_number then some v else some best)
    none

/-- Embeds `MetadataRecord.query.filter_by(schema_id=…).count()`. -/
def DB.recordCount (db : DB) (schema_id : Nat) : Nat :=
  (db.records.filter (fun r => r.schema_id = schema_id)).length

/-- Embeds `FieldValue.query.filter_by(schema_field_id=…)`. -/
def DB.valuesOfField (db : DB) (field_id : Nat) : List FieldValue :=
  db.field_values.filter (fun v => v.schema_field_id = field_id)

/-- The `uq_schema_field` unique constraint of `SchemaField.__table_args__`:
inserting a field row fails at flush when another row of the same schema
already carries the same `field_name` (active or soft-deleted — the
constraint is not filtered on `is_deleted`). -/
def DB.insertField (db : DB) (f : SchemaField) : Except String DB :=
  if db.fields.any (fun g => g.schema_id = f.schema_id ∧ g.field_name = f.field_name) then
    .error ("IntegrityError: UNIQUE constraint failed: schema_fields.schema_id, schema_fields.field_name")
  else
    .ok { db with fields := db.fields ++ [f] }

/-- Embeds `SchemaManager._get_schema_snapshot` (and the identical
`SchemaVersionControl._build_snapshot`): snapshot every field row of the
schema, soft-deleted ones included, recording the `deleted` flag. -/
def DB.snapshot (db : DB) (schema : SchemaModel) : Snapshot :=
  { schema_id := schema.id
    name := schema.name
    fields := (db.schemaFields schema.id).map (fun f =>
      { id := f.id, name := f.field_name, type := f.field_type,
        required := f.is_required, default := f.default_value,
        constraints := f.constraints, description := f.description,
        order := f.order_index, deleted := f.is_deleted }) }

/-- Update the first element satisfying `p` (SQLAlchemy identity-map style
in-place mutation of the row a `.first()` query returned). -/
def updateFirst (p : α → Bool) (g : α → α) : List α → List α
  | [] => []
  | x :: xs => if p x then g x :: xs else x :: updateFirst p g xs

/-- Remove the first element satisfying `p` (`db.session.delete(row)`). -/
def removeFirst (p : α → Bool) : List α → List α
  | [] => []
  | x :: xs => if p x then xs else x :: removeFirst p xs

/-- Keys of the Python dict `{f['name']: f for f in fields}`, in first-insertion
order. -/
def dictKeys (fs : List SnapField) : List String :=
  fs.foldl (fun ks f => if f.name ∈ ks then ks else ks ++ [f.name]) []

/-- Value lookup in that dict: the last entry with the key wins. -/
def dictGet (fs : List SnapField) (n : String) : Option SnapField :=
  fs.reverse.find? (fun f => f.name = n)

/-- Embeds `next((f for f in fields if f['name'] == name), None)`: first match. -/
def snapFind (fs : List SnapField) (n : String) : Option SnapField :=
  fs.find? (fun f => f.name = n)

/-- Result of `SchemaVersionControl._calculate_diff` (the redundant `summary`
counts are recomputable and omitted). -/
structure SchemaDiff where
  added_fields : List String
  removed_fields : List String
  modified_fields : List (String × List String)
deriving DecidableEq, Repr

/-- The per-field attribute comparison of `_calculate_diff`: type, required
and constraints only — the `deleted` flag is NOT compared. -/
def fieldChanges (f1 f2 : SnapField) : List String :=
  (if f1.type ≠ f2.type then ["type: " ++ f1.type ++ " -> " ++ f2.type] else []) ++
  (if f1.required ≠ f2.required then
    ["required: " ++ toString f1.required ++ " -> " ++ toString f2.required] else []) ++
  (if f1.constraints ≠ f2.constraints then ["constraints changed"] else [])

/-- Embeds `SchemaVersionControl._calculate_diff(snapshot1, snapshot2)`.  Keys are
field NAMES, taken from the snapshots regardless of the `deleted` flag. -/
def calculate_diff (s1 s2 : Snapshot) : SchemaDiff :=
  let keys1 := dictKeys s1.fields
  let keys2 := dictKeys s2.fields
  { added_fields := keys2.filter (fun n => n ∉ keys1)
    removed_fields := keys1.filter (fun n => n ∉ keys2)
    modified_fields := keys1.filterMap (fun n =>
      if n ∈ keys2 then
        match dictGet s1.fields n, dictGet s2.fields n with
        | some f1, some f2 =>
            let cs := fieldChanges f1 f2
            if cs ≠ [] then some (n, cs) else none
        | _, _ => none
      else none) }

/-- Result dict of `SchemaVersionControl.rollback`; keys absent from a given
return path are `none`. -/
structure RollbackResult where
  success : Bool
  message : Option String := none
  error : Option String := none
  from_version : Option Int := none
  to_version : Option Int := none
  changes : List String
deriving DecidableEq, Repr

/-- Restore step of `rollback` for one name of `diff['added_fields']`
(present in target, absent from current): un-delete a matching soft-deleted
row if one exists, otherwise insert a fresh row built from the target
snapshot definition (the insert can violate `uq_schema_field`, which the
enclosing `except` turns into a failure result). -/
def rollbackRestoreOne (schema_id : Nat) (target : Snapshot) (st : DB × List String)
    (field_name : String) : Except (String × List String) (DB × List String) :=
  let (db, changes) := st
  match snapFind target.fields field_name with
  | none => .ok (db, changes)
  | some field_def =>
    match db.findDeletedField schema_id field_name with
    | some _ =>
        .ok ({ db with fields := (updateFirst
                (fun f => f.schema_id = schema_id ∧ f.field_name = field_name ∧
                  f.is_deleted = true)
                (fun f => { f with is_deleted := false }) db.fields) },
             changes ++ ["Restored field " ++ field_name])
    | none =>
        let new_field : SchemaField :=
          { id := 1 + db.fields.foldl (fun m f => max m f.id) 0
            schema_id := schema_id
            field_name := field_def.name
            field_type := field_def.type
            is_required := field_def.required
            default_value := field_def.default
            constraints := field_def.constraints
            description := field_def.description
            is_deleted := false
            order_index := field_def.order }
        match db.insertField new_field with
        | .ok db2 => .ok (db2, changes ++ ["Recreated field " ++ field_name])
        | .error e => .error (e, changes)

/-- Removal step of `rollback` for one name of `diff['removed_fields']`
(present in current, absent from target): soft delete when `preserve_data`,
else hard delete the row together with its values. -/
def rollbackRemoveOne (schema_id : Nat) (preserve_data : Bool) (st : DB × List String)
    (field_name : String) : DB × List String :=
  let (db, changes) := st
  match db.findActiveField schema_id field_name with
  | none => (db, changes)
  | some field =>
      if preserve_data then
        ({ db with fields := (updateFirst
            (fun f => f.schema_id = schema_id ∧ f.field_name = field_name ∧
              f.is_deleted = false)
            (fun f => { f with is_deleted := true }) db.fields) },
         changes ++ ["Soft deleted field " ++ field_name])
      else
        ({ db with
            field_values := (db.field_values.filter
              (fun v => v.schema_field_id ≠ field.id))
            fields := (removeFirst
              (fun f => f.schema_id = schema_id ∧ f.field_name = field_name ∧
                f.is_deleted = false) db.fields) },
         changes ++ ["Deleted field " ++ field_name ++ " and all data"])

/-- Modified-field step of `rollback`: overwrite the live row's attributes
from the target snapshot (the soft-delete flag is not touched). -/
def rollbackModifyOne (schema_id : Nat) (target : Snapshot) (st : DB × List String)
    (entry : String × List String) : DB × List String :=
  let (db, changes) := st
  let field_name := entry.1
  match db.findActiveField schema_id field_name with
  | none => (db, changes)
  | some _ =>
    match snapFind target.fields field_name with
    | none => (db, changes)
    | some tf =>
        let overwrite : SchemaField → SchemaField := fun f =>
          { f with
              field_type := tf.type
              is_required := tf.required
              default_value := tf.default
              constraints := tf.constraints
              description := tf.description
              order_index := tf.order }
        ({ db with fields := (updateFirst
            (fun f => f.schema_id = schema_id ∧ f.field_name = field_name ∧
              f.is_deleted = false)
            overwrite
            db.fields) },
         changes ++ ["Reverted field " ++ field_name ++ ": " ++
           String.intercalate (", ") entry.2])

/-- Embeds `SchemaVersionControl.rollback(schema_id, target_version, user_id,
preserve_data)`.  `commit_error` injects an exception raised by the database
at commit (e.g. a connectivity failure): inside the `try` every exception is
caught, the session is rolled back and a failure dict is returned.  Only the
pre-check `ValueError`s (schema/version not found) are raised to the caller,
modelled by `Except.error`. -/
def rollback (db : DB) (schema_id : Nat) (target_version : Int) (user_id : Nat)
    (preserve_data : Bool := true) (commit_error : Option String := none) :
    Except String (RollbackResult × DB) :=
  match db.getSchema schema_id with
  | none => .error ("ValueError: Schema " ++ toString schema_id ++ " not found")
  | some _ =>
  match db.findVersion schema_id target_version with
  | none => .error ("ValueError: Version " ++ toString target_version ++ " not found")
  | some target =>
  match db.latestVersion schema_id with
  | none => .error ("AttributeError: NoneType has no attribute version_number")
  | some current_version =>
  if current_version.version_number = target_version then
    .ok ({ success := true, message := some ("Already at target version"),
           changes := [] }, db)
  else
    let diff := calculate_diff current_version.schema_snapshot target.schema_snapshot
    let tryBody : Except (String × List String) (DB × List String) := do
      let st1 ← diff.added_fields.foldlM
        (rollbackRestoreOne schema_id target.schema_snapshot) (db, [])
      let st2 := diff.removed_fields.foldl (rollbackRemoveOne schema_id preserve_data) st1
      let st3 := diff.modified_fields.foldl
        (rollbackModifyOne schema_id target.schema_snapshot) st2
      let log : ChangeLog :=
        { schema_id := schema_id
          change_type := "rollback"
          description := "Rolled back from v" ++ toString current_version.version_number ++
            " to v" ++ toString target_version
          changed_by := user_id }
      let db3 := { st3.1 with change_logs := st3.1.change_logs ++ [log] }
      match commit_error with
      | some e => .error (e, st3.2)
      | none => .ok (db3, st3.2)
    match tryBody with
    | .ok (db', changes_made) =>
        .ok ({ success := true
               message := some ("Successfully rolled back to version " ++
                 toString target_version)
               from_version := some current_version.version_number
               to_version := some target_version
               changes := changes_made }, db')
    | .error (e, changes_made) =>
        .ok ({ success := false, error := some e, changes := changes_made }, db)

/-- Embeds `ValidationEngine.TYPE_COMPATIBILITY` as the total lookup
`TYPE_COMPATIBILITY.get(old_type, [])`. -/
def TYPE_COMPATIBILITY : String → List String := fun t =>
  if t = "string" then ["string", "json", "array", "object"]
  else if t = "integer" then ["integer", "float", "string", "json", "array", "object"]
  else if t = "float" then ["float", "string", "json", "array", "object"]
  else if t = "boolean" then ["boolean", "string", "json", "array", "object"]
  else if t = "date" then ["date", "string", "json", "array", "object"]
  else if t = "json" then ["json", "string", "array", "object"]
  else if t = "array" then ["array", "string", "json", "object"]
  else if t = "object" then ["object", "string", "json", "array"]
  else []

/-- Embeds `ValidationEngine._is_valid_identifier`: the regex
`^[a-zA-Z_][a-zA-Z0-9_]*$`. -/
def is_valid_identifier (name : String) : Bool :=
  match name.toList with
  | [] => false
  | c :: rest =>
      (c.isAlpha || c = '_') && rest.all (fun d => d.isAlphanum || d = '_')

/-- Modelled from the spec: `re.compile(regex)` succeeds (the `re` module is
external to the repository; the spec only requires "regex compiles").  We
approximate compilability by balancedness of groups and classes; no claim
depends on the exact regex dialect. -/
def regexCompiles (s : String) : Bool :=
  let step : Int × Int → Char → Int × Int := fun (p, b) c =>
    if c = '(' then (p + 1, b)
    else if c = ')' then (p - 1, b)
    else if c = '[' then (p, b + 1)
    else if c = ']' then (p, b - 1)
    else (p, b)
  let (p, b) := s.toList.foldl step (0, 0)
  p = 0 && b = 0

/-- A field definition dict handed to `validate_fields` /
`validate_add_field`.  Outer `Option` on `name` and `default` records whether
the key is present in the dict. -/
structure FieldDef where
  name : Option String := none
  type : Option String := none
  required : Bool := false
  default : Option (Option String) := none
  constraints : Option Constraints := none
  description : Option String := none
deriving DecidableEq, Repr

/-- Embeds `ValidationEngine._validate_constraints(field_name, field_type,
constraints)`. -/
def validate_constraints_shape (field_name field_type : String) (c : Constraints) :
    List String :=
  (if field_type = "integer" ∨ field_type = "float" then
    match c.min, c.max with
    | some lo, some hi =>
        if lo > hi then ["Field " ++ field_name ++ ": min > max"] else []
    | _, _ => []
   else []) ++
  (if field_type = "string" then
    (match c.min_length, c.max_length with
     | some lo, some hi =>
         if lo > hi then ["Field " ++ field_name ++ ": min_length > max_length"] else []
     | _, _ => []) ++
    (match c.regex with
     | some r => if regexCompiles r then [] else ["Field " ++ field_name ++ ": Invalid regex"]
     | none => [])
   else []) ++
  (match c.enum with
   | some l => if l = [] then ["Field " ++ field_name ++ ": enum cannot be empty"] else []
   | none => [])

/-- The per-field body of `ValidationEngine.validate_fields`; `seen` is the
`field_names` set accumulated so far. -/
def validateOneField (idx : Nat) (seen : List String) (field : FieldDef) :
    List String × List String :=
  match field.name with
  | none => (["Field " ++ toString idx ++ ": Missing name"], seen)
  | some field_name =>
    let dupErr :=
      if field_name ∈ seen then ["Field " ++ field_name ++ ": Duplicate field name"] else []
    let seen' := seen ++ [field_name]
    let nameErr :=
      if is_valid_identifier field_name then []
      else ["Field " ++ field_name ++
        ": Invalid name. Must be alphanumeric with underscores, starting with letter"]
    let field_type := field.type.getD ("string")
    let typeErr :=
      if field_type ∈ SUPPORTED_TYPES then []
      else ["Field " ++ field_name ++ ": Unsupported type " ++ field_type]
    let consErr :=
      match field.constraints with
      | some c => validate_constraints_shape field_name field_type c
      | none => []
    let reqErr :=
      if field.required ∧ field.default = none then
        ["Field " ++ field_name ++ ": Required fields must have a default value for existing records"]
      else []
    (dupErr ++ nameErr ++ typeErr ++ consErr ++ reqErr, seen')

/-- Embeds `ValidationEngine.validate_fields(fields)`: the full list of violations,
not just the first. -/
def validate_fields (fields : List FieldDef) : List String :=
  (fields.foldl
    (fun (acc : List String × List String × Nat) field =>
      let (errs, seen, idx) := acc
      let (newErrs, seen') := validateOneField idx seen field
      (errs ++ newErrs, seen', idx + 1))
    ([], [], 0)).1

/-- Embeds `ValidationEngine.validate_add_field(schema_id, field_def, record_count)`. -/
def validate_add_field (field_def : FieldDef) (record_count : Nat) : List String :=
  validate_fields [field_def] ++
  (if record_count > 0 ∧ field_def.required ∧
      (field_def.default = none ∨ field_def.default = some none) then
    ["Cannot add required field " ++ (field_def.name.getD "") ++
      " without default value to schema with " ++ toString record_count ++
      " existing records"]
   else []) ++
  (if record_count > 100000 then
    ["WARNING: Adding field to large schema (" ++ toString record_count ++
      " records). This may take time and impact performance."]
   else [])

/-- A validation error returned by `validate_type_change`, with the message
text abstracted into a constructor per error site. -/
inductive VError where
  | incompatible (old_type new_type : String)
  | fieldNotFound (field_id : Nat)
  | incompatibleValues (found sample estimated total : Nat)
deriving DecidableEq, Repr

/-- Embeds `ValidationEngine._test_conversion(value, old_type, new_type)`: attempt
the cast the codec would perform; only string/integer/float/boolean targets
are exercised, every other target is a no-op. -/
def test_conversion (value : PyVal) (_old_type new_type : String) :
    Except String Unit :=
  if new_type = "string" then .ok ()
  else if new_type = "integer" then (pyInt value).map (fun _ => ())
  else if new_type = "float" then (pyFloat value).map (fun _ => ())
  else if new_type = "boolean" then .ok ()
  else .ok ()

/-- Embeds `ValidationEngine.validate_type_change(field_id, old_type, new_type)`:
first the directed-compatibility gate (early return), then the existence
gate, then the sample-based conversion check over up to 100 existing values.
`value.get_value()` reads through the owning field's current type. -/
def validate_type_change (db : DB) (field_id : Nat) (old_type new_type : String) :
    List VError :=
  if new_type ∉ TYPE_COMPATIBILITY old_type then
    [.incompatible old_type new_type]
  else
    match db.fields.find? (fun f => f.id = field_id) with
    | none => [.fieldNotFound field_id]
    | some field =>
      let sample_values := (db.valuesOfField field_id).take 100
      let incompatible_count :=
        (sample_values.filter (fun v =>
          let current_value := v.get_value field.field_type
          current_value ≠ .null ∧
            (test_conversion current_value old_type new_type).isOk = false)).length
      if incompatible_count > 0 then
        let total_values := (db.valuesOfField field_id).length
        [.incompatibleValues incompatible_count sample_values.length
          (incompatible_count * total_values / sample_values.length) total_values]
      else []

/-- Embeds `SchemaManager._create_version_snapshot(schema, change_summary, user_id)`:
append a `SchemaVersion` numbered `latest + 1` (or 1) holding the current
snapshot. -/
def createVersionSnapshot (db : DB) (schema : SchemaModel) (change_summary : String) :
    DB :=
  let version_number :=
    match db.latestVersion schema.id with
    | some latest => latest.version_number + 1
    | none => 1
  { db with versions := db.versions ++
      [{ schema_id := schema.id, version_number := version_number,
         schema_snapshot := db.snapshot schema, change_summary := change_summary }] }

/-- Embeds `SchemaManager._add_default_values_to_existing_records(field,
default_value)`: one fresh `FieldValue` per record of the schema, populated
through `set_value` (whose coercion errors propagate to the enclosing
`try`). -/
def addDefaultValues (db : DB) (field : SchemaField) (default_value : String) :
    Except String DB :=
  let records := db.records.filter (fun r => r.schema_id = field.schema_id)
  records.foldlM
    (fun acc r =>
      let fv : FieldValue := { record_id := r.id, schema_field_id := field.id }
      match fv.set_value field.field_type (.str default_value) with
      | (none, fv') => .ok { acc with field_values := acc.field_values ++ [fv'] }
      | (some e, _) => .error e)
    db

/-- Embeds `SchemaManager.add_field(schema_id, field_name, field_type, user_id,
is_required, default_value, constraints, description)`.  `Except.error`
models a raised exception; every exception inside the `try` (the
`uq_schema_field` IntegrityError at flush included) is re-raised as
`Failed to add field: …` with the session rolled back. -/
def add_field (db : DB) (schema_id : Nat) (field_name field_type : String)
    (user_id : Nat) (is_required : Bool := false)
    (default_value : Option String := none)
    (constraints : Option Constraints := none)
    (description : Option String := none) : Except String (SchemaField × DB) :=
  match db.getSchema schema_id with
  | none => .error ("ValueError: Schema " ++ toString schema_id ++ " not found")
  | some schema =>
  match db.findActiveField schema_id field_name with
  | some _ => .error ("ValueError: Field " ++ field_name ++ " already exists in schema")
  | none =>
  let field_def : FieldDef :=
    { name := some field_name, type := some field_type, required := is_required,
      default := some default_value, constraints := constraints }
  let record_count := db.recordCount schema_id
  let validation_errors := validate_add_field field_def record_count
  if validation_errors ≠ [] then
    .error ("ValueError: Validation failed: " ++ String.intercalate ("; ") validation_errors)
  else
    let schemaRows := db.schemaFields schema_id
    let max_order : Int :=
      if schemaRows = [] then 0
      else schemaRows.foldl (fun m f => max m f.order_index) 0
    let field : SchemaField :=
      { id := 1 + db.fields.foldl (fun m f => max m f.id) 0
        schema_id := schema_id
        field_name := field_name
        field_type := field_type
        is_required := is_required
        default_value := default_value
        constraints := constraints
        description := description
        order_index := max_order + 1 }
    let tryBody : Except String DB := do
      let db1 ← db.insertField field
      let db2 ←
        if is_required ∧ default_value.getD ("") ≠ "" ∧ record_count > 0 then
          addDefaultValues db1 field (default_value.getD (""))
        else .ok db1
      let log : ChangeLog :=
        { schema_id := schema_id, change_type := "field_added",
          description := "Added field " ++ field_name ++ " (" ++ field_type ++ ")",
          changed_by := user_id }
      let db3 := { db2 with change_logs := db2.change_logs ++ [log] }
      .ok (createVersionSnapshot db3 schema ("Added field " ++ field_name))
    match tryBody with
    | .ok db' => .ok (field, db')
    | .error e => .error ("Failed to add field: " ++ e)

/-- Embeds `SchemaManager.remove_field(schema_id, field_name, user_id, permanent)`:
hard delete removes the row and its values, soft delete flips `is_deleted`;
both append a `field_removed` ChangeLog and a new version snapshot. -/
def remove_field (db : DB) (schema_id : Nat) (field_name : String) (user_id : Nat)
    (permanent : Bool := false) : Except String (Bool × DB) :=
  match db.getSchema schema_id with
  | none => .error ("ValueError: Schema " ++ toString schema_id ++ " not found")
  | some schema =>
  match db.findActiveField schema_id field_name with
  | none => .error ("ValueError: Field " ++ field_name ++ " not found")
  | some field =>
    let db1 :=
      if permanent then
        { db with
            field_values := (db.field_values.filter
              (fun v => v.schema_field_id ≠ field.id))
            fields := (removeFirst
              (fun f => f.schema_id = schema_id ∧ f.field_name = field_name ∧
                f.is_deleted = false) db.fields) }
      else
        { db with fields := (updateFirst
            (fun f => f.schema_id = schema_id ∧ f.field_name = field_name ∧
              f.is_deleted = false)
            (fun f => { f with is_deleted := true }) db.fields) }
    let action := if permanent then ("permanently deleted") else ("soft deleted")
    let log : ChangeLog :=
      { schema_id := schema_id, change_type := "field_removed",
        description := "Field " ++ field_name ++ " " ++ action,
        changed_by := user_id }
    let db2 := { db1 with change_logs := db1.change_logs ++ [log] }
    .ok (true, createVersionSnapshot db2 schema ("Removed field " ++ field_name))

/-- The value-migration loop of `SchemaManager._migrate_field_type`, threaded
over the whole `field_values` table in order.  `cur_type` is the live
`field.field_type`, which the source mutates to `new_type` inside the loop
before the first `set_value` and never resets on success — so from the
second migrated row on, `get_value` already reads through `new_type`. -/
def migrateLoop (field_id : Nat) (old_type new_type : String) :
    List FieldValue → String → Except String (List FieldValue × String)
  | [], cur_type => .ok ([], cur_type)
  | v :: vs, cur_type =>
      if v.schema_field_id = field_id then
        let old_value := v.get_value cur_type
        if old_value = .null then
          (migrateLoop field_id old_type new_type vs cur_type).map
            (fun (rest, t) => (v :: rest, t))
        else
          match v.set_value new_type old_value with
          | (none, v') =>
              (migrateLoop field_id old_type new_type vs new_type).map
                (fun (rest, t) => (v' :: rest, t))
          | (some e, _) =>
              .error ("ValueError: Cannot convert value from " ++ old_type ++
                " to " ++ new_type ++ ": " ++ e)
      else
        (migrateLoop field_id old_type new_type vs cur_type).map
          (fun (rest, t) => (v :: rest, t))

/-- Embeds `SchemaManager.modify_field(schema_id, field_name, user_id, new_type,
new_required, new_constraints, new_description)`.  Mirrors the source: a
type change is applied only when `new_type` is truthy and differs; `required`
only when supplied and different; constraints and description are applied
(and counted as changes) whenever supplied, equal or not; with an empty
change list the function returns before writing any ChangeLog or version. -/
def modify_field (db : DB) (schema_id : Nat) (field_name : String) (user_id : Nat)
    (new_type : Option String := none) (new_required : Option Bool := none)
    (new_constraints : Option Constraints := none)
    (new_description : Option String := none) : Except String (SchemaField × DB) :=
  match db.getSchema schema_id with
  | none => .error ("ValueError: Schema " ++ toString schema_id ++ " not found")
  | some schema =>
  match db.findActiveField schema_id field_name with
  | none => .error ("ValueError: Field " ++ field_name ++ " not found")
  | some field0 =>
  let old_type := field0.field_type
  let tryBody : Except String (SchemaField × DB) := do
    let (field1, db1, changes1) ←
      match new_type with
      | some nt =>
          if nt ≠ "" ∧ nt ≠ old_type then do
            let verrs := validate_type_change db field0.id old_type nt
            if verrs ≠ [] then
              .error ("ValueError: Type change validation failed")
            else do
              let (vals', _) ← migrateLoop field0.id old_type nt db.field_values old_type
              let f1 := { field0 with field_type := nt }
              .ok (f1, { db with field_values := vals' },
                   ["type: " ++ old_type ++ " -> " ++ nt])
          else .ok (field0, db, [])
      | none => .ok (field0, db, [])
    let (field2, changes2) :=
      match new_required with
      | some r =>
          if r ≠ field1.is_required then
            ({ field1 with is_required := r },
             changes1 ++ ["required: " ++ toString r ++ " -> " ++ toString r])
          else (field1, changes1)
      | none => (field1, changes1)
    let (field3, changes3) :=
      match new_constraints with
      | some c => ({ field2 with constraints := some c }, changes2 ++ ["constraints updated"])
      | none => (field2, changes2)
    let (field4, changes4) :=
      match new_description with
      | some d => ({ field3 with description := some d }, changes3 ++ ["description updated"])
      | none => (field3, changes3)
    let db2 := { db1 with fields := (updateFirst
      (fun f => f.schema_id = schema_id ∧ f.field_name = field_name ∧
        f.is_deleted = false)
      (fun _ => field4) db1.fields) }
    if changes4 = [] then
      .ok (field4, db)
    else
      let log : ChangeLog :=
        { schema_id := schema_id, change_type := "field_modified",
          description := "Modified field " ++ field_name ++ ": " ++
            String.intercalate (", ") changes4,
          changed_by := user_id }
      let db3 := { db2 with change_logs := db2.change_logs ++ [log] }
      .ok (field4, createVersionSnapshot db3 schema ("Modified field " ++ field_name))
  match tryBody with
  | .ok r => .ok r
  | .error e => .error ("Failed to modify field: " ++ e)

/-- The statistics dict built by `get_schema_statistics` (its
`last_updated` isoformat text is the clock value at computation time). -/
structure StatsDict where
  schema_id : Nat
  record_count : Nat
  field_count : Nat
  last_updated : Int
deriving DecidableEq, Repr

/-- A value held by the catalog cache dict: the statistics dict, or one of
the other (schema / fields / asset-type) payloads, which the claims never
inspect and which are therefore opaque. -/
inductive CacheVal where
  | stats (s : StatsDict)
  | payload (tag : Nat)
deriving DecidableEq, Repr

/-- Embeds `MetadataCatalog` state: the `cache` dict, the `cache_timestamps` dict
(insertion instants, seconds) and the single `cache_ttl` set at
construction (default 300). -/
structure MetadataCatalog where
  cache : List (String × CacheVal) := []
  cache_timestamps : List (String × Int) := []
  cache_ttl : Int := 300
deriving DecidableEq, Repr

/-- Python dict assignment `d[k] = v`: overwrite in place, else append. -/
def dictSet (l : List (String × α)) (k : String) (v : α) : List (String × α) :=
  if l.any (fun p => p.1 = k) then
    l.map (fun p => if p.1 = k then (k, v) else p)
  else l ++ [(k, v)]

/-- Python dict lookup `d.get(k)`. -/
def dictLookup (l : List (String × α)) (k : String) : Option α :=
  (l.find? (fun p => p.1 = k)).map (·.2)

/-- Python dict deletion `del d[k]`. -/
def dictDel (l : List (String × α)) (k : String) : List (String × α) :=
  l.filter (fun p => p.1 ≠ k)

/-- Embeds `MetadataCatalog._get_from_cache(key)` at instant `now`: a miss when the
key is absent; when present, the entry expires (and is deleted) when its age
exceeds `self.cache_ttl` — the single constructor-time ttl, whatever ttl was
mentioned when the entry was stored. -/
def MetadataCatalog.getFromCache (c : MetadataCatalog) (key : String) (now : Int) :
    Option CacheVal × MetadataCatalog :=
  match dictLookup c.cache key with
  | none => (none, c)
  | some v =>
    match dictLookup c.cache_timestamps key with
    | some timestamp =>
        let age := now - timestamp
        if age > c.cache_ttl then
          (none,
           { c with
               cache := dictDel c.cache key
               cache_timestamps := dictDel c.cache_timestamps key })
        else (some v, c)
    | none => (some v, c)

/-- Embeds `MetadataCatalog._put_in_cache(key, value, ttl=None)`.  Faithful to the
source: the `ttl` argument is accepted and silently ignored — only the
insertion timestamp is recorded, and expiry always tests `self.cache_ttl`. -/
def MetadataCatalog.putInCache (c : MetadataCatalog) (key : String) (v : CacheVal)
    (_ttl : Option Int) (now : Int) : MetadataCatalog :=
  { c with cache := dictSet c.cache key v,
           cache_timestamps := dictSet c.cache_timestamps key now }

/-- Embeds `MetadataCatalog.get_schema_statistics(schema_id)` at instant `now`:
read-through on key `stats:<id>`, recomputing record/field counts from the
database on a miss and storing them with the (ignored) shorter ttl 60. -/
def get_schema_statistics (db : DB) (c : MetadataCatalog) (schema_id : Nat)
    (now : Int) : StatsDict × MetadataCatalog :=
  let cache_key := "stats:" ++ toString schema_id
  match c.getFromCache cache_key now with
  | (some (.stats s), c') => (s, c')
  | (cached, c') =>
    -- `cached` is either `none` or (unreachably for this key) a non-stats
    -- payload; recompute as on a miss.
    let _ := cached
    let record_count := db.recordCount schema_id
    let field_count :=
      (db.fields.filter (fun f => f.schema_id = schema_id ∧ f.is_deleted = false)).length
    let stats : StatsDict :=
      { schema_id := schema_id, record_count := record_count,
        field_count := field_count, last_updated := now }
    (stats, c'.putInCache cache_key (.stats stats) (some 60) now)

/-- The report dict the tail of `ImpactAnalyzer.analyze_field_removal`
would build — code that is unreachable in the source, because the
`NameError` below is raised first (`recommendations` keeps the `None`
placeholders of the source list). -/
structure RemovalReport where
  operation : String
  field_name : String
  field_type : String
  affected_values : Nat
  non_null_values : Nat
  data_loss : Bool
  risk_level : String
  recommendations : List (Option String)
deriving DecidableEq, Repr

/-- Whether any of the six typed slots of an EAV row is populated: the
`or_` filter of the non-null count query at `migration_generator.py:407` —
a query that raises before it can run, see `analyze_field_removal`. -/
def FieldValue.anySlot (v : FieldValue) : Bool :=
  v.value_text.isSome || v.value_int.isSome || v.value_float.isSome ||
  v.value_bool.isSome || v.value_date.isSome || v.value_json.isSome

/-- Embeds `ImpactAnalyzer.analyze_field_removal(schema_id, field_name)`.
The outer `Except` is a raised exception, the inner one the value the
function returns (the `{'error': 'Field not found'}` dict or a report).
`migration_generator.py` never imports `db` (its imports are `typing`,
`datetime`, three model classes and `SchemaVersionControl`), so the
non-null-count query `db.session.query(db.func.count(...))` at line 407
raises `NameError: name 'db' is not defined` as soon as an active field is
found; `value_count` (line 406) is still computed first through the locally
imported `FieldValue`, and the report-building code below the query is
unreachable. -/
def analyze_field_removal (db : DB) (schema_id : Nat) (field_name : String) :
    Except String (Except String RemovalReport) :=
  match db.findActiveField schema_id field_name with
  | none => .ok (.error ("Field not found"))
  | some field =>
      let value_count := (db.valuesOfField field.id).length
      let _ := value_count
      .error ("NameError: name db is not defined")

/-! Concrete states used by witnesses and counterexamples. -/

/-- A one-field schema "S" whose field `price` is currently soft-deleted;
version 1 snapshotted it active, version 2 (latest) snapshotted it
soft-deleted — the state after `remove_field(permanent=False)`. -/
def snapPriceActive : Snapshot :=
  { schema_id := 1, name := "S",
    fields := [{ id := 1, name := "price", type := "float", required := false,
                 default := none, constraints := none, description := none,
                 order := 0, deleted := false }] }

/-- Version-2 snapshot: the same field, flagged deleted. -/
def snapPriceDeleted : Snapshot :=
  { schema_id := 1, name := "S",
    fields := [{ id := 1, name := "price", type := "float", required := false,
                 default := none, constraints := none, description := none,
                 order := 0, deleted := true }] }

/-- The soft-deleted live row. -/
def priceRowDeleted : SchemaField :=
  { id := 1, schema_id := 1, field_name := "price", field_type := "float",
    is_deleted := true, order_index := 0 }

/-- A snapshot listing no fields at all (the field's name absent, not just
flagged deleted). -/
def snapNoFields : Snapshot := { schema_id := 1, name := "S", fields := [] }

/-- Version row 1: `price` active. -/
def versionRowActive : SchemaVersion :=
  { schema_id := 1, version_number := 1, schema_snapshot := snapPriceActive }

/-- Latest version row snapshotting no fields. -/
def versionRowEmpty : SchemaVersion :=
  { schema_id := 1, version_number := 2, schema_snapshot := snapNoFields }

/-- State whose latest snapshot omits `price` entirely while a soft-deleted
`price` row survives: rolling back to version 1 must reach the restore
path. -/
def dbPriceMissing : DB :=
  { schemas := [{ id := 1, name := "S", asset_type_id := 1 }]
    fields := [priceRowDeleted]
    versions := [versionRowActive, versionRowEmpty] }

/-- Version row 2 (latest): `price` soft-deleted. -/
def versionRowDeleted : SchemaVersion :=
  { schema_id := 1, version_number := 2, schema_snapshot := snapPriceDeleted }

/-- Database state after soft-deleting `price`: live row flagged deleted,
v1 (active) and v2 (deleted) in the version history. -/
def dbPriceSoftDeleted : DB :=
  { schemas := [{ id := 1, name := "S", asset_type_id := 1 }]
    fields := [priceRowDeleted]
    versions := [versionRowActive, versionRowDeleted] }

/-- A schema with one active field `price` and no version history yet, the
starting point of the remove-then-re-add scenario. -/
def dbPriceActive : DB :=
  { schemas := [{ id := 1, name := "S", asset_type_id := 1 }]
    fields := [{ id := 1, schema_id := 1, field_name := "price",
                 field_type := "float", is_deleted := false, order_index := 0 }] }

/-- Constraints value reused for the modify-field no-op scenario. -/
def consMin0 : Constraints := { min := some 0 }

/-- The schema row shared by the concrete scenarios. -/
def schemaS : SchemaModel := { id := 1, name := "S", asset_type_id := 1 }

/-- The active `size` field row of `dbSizeField`. -/
def sizeFieldRow : SchemaField :=
  { id := 5, schema_id := 1, field_name := "size", field_type := "integer",
    constraints := some consMin0, is_deleted := false, order_index := 0 }

/-- A schema with one active field `size` carrying `consMin0`, plus two
records and two populated integer values for that field. -/
def dbSizeField : DB :=
  { schemas := [schemaS]
    fields := [sizeFieldRow]
    records := [{ id := 1, schema_id := 1 }, { id := 2, schema_id := 1 }]
    field_values :=
      [ { record_id := 1, schema_field_id := 5, value_int := some 10 },
        { record_id := 2, schema_field_id := 5, value_int := some 20 } ] }

/-- The message of a raised exception, `none` when the operation returned
normally (used to state computations on `Except` results decidably). -/
def errorText : Except String α → Option String
  | .error e => some e
  | .ok _ => none

/-- An active (non-soft-deleted) field row with this name exists for the
schema. -/
def DB.activeFieldExists (db : DB) (schema_id : Nat) (name : String) : Prop :=
  ∃ f ∈ db.fields, f.schema_id = schema_id ∧ f.field_name = name ∧ f.is_deleted = false

/-- The rollback restore step can re-establish this field name without
tripping the `uq_schema_field` constraint: either a soft-deleted row with
the name exists (un-delete path) or no row with the name exists at all
(fresh insert path). -/
def DB.restorable (db : DB) (schema_id : Nat) (name : String) : Prop :=
  (db.findDeletedField schema_id name).isSome ∨
    ∀ f ∈ db.fields, ¬(f.schema_id = schema_id ∧ f.field_name = name)

instance (db : DB) (schema_id : Nat) (name : String) :
    Decidable (db.activeFieldExists schema_id name) := by
  unfold DB.activeFieldExists
  infer_instance

instance (db : DB) (schema_id : Nat) (name : String) :
    Decidable (db.restorable schema_id name) := by
  unfold DB.restorable
  infer_instance

/-! ## Theorems -/

/-- C10 — `FieldValue.get_value` is total (a Lean function by construction)
and never errs: it yields `None` when the field's type tag is not one of the
eight supported types, and `None` whenever the single slot selected by the
field's type is empty — in particular a populated row whose slot does not
match the field's current type (a row written under the field's old type)
reads as `None`. -/
theorem get_value_total (v : FieldValue) (field_type : String) :
    (field_type ∉ SUPPORTED_TYPES → v.get_value field_type = .null) ∧
    (v.selectedSlotEmpty field_type → v.get_value field_type = .null) := by
  constructor
  · intro h
    unfold FieldValue.get_value
    split_ifs with h1 h2 h3 h4 h5 h6
    · exact absurd (by rw [h1]; decide) h
    · exact absurd (by rw [h2]; decide) h
    · exact absurd (by rw [h3]; decide) h
    · exact absurd (by rw [h4]; decide) h
    · exact absurd (by rw [h5]; decide) h
    · rcases h6 with h6 | h6 | h6 <;> exact absurd (by rw [h6]; decide) h
    · rfl
  · intro h
    obtain ⟨hs, hi, hf, hb, hd, hj⟩ := h
    unfold FieldValue.get_value
    split_ifs with h1 h2 h3 h4 h5 h6
    · rw [hs h1]
    · rw [hi h2]
    · rw [hf h3]
    · rw [hb h4]
    · rw [hd h5]
    · rw [hj h6]
    · rfl

/-- A row populated only in the integer slot, as written while its field's
type was `integer`. -/
def rowIntOnly : FieldValue :=
  { record_id := 1, schema_field_id := 1, value_int := some 42 }

/-- C10 witness: the integer-slot row reads as `None` both under a changed
field type (`string`) and under an unsupported type tag (`datetime`). -/
theorem get_value_total_witness :
    rowIntOnly.get_value ("string") = .null ∧ rowIntOnly.get_value ("datetime") = .null :=
  ⟨(get_value_total rowIntOnly ("string")).2 (by decide),
   (get_value_total rowIntOnly ("datetime")).1 (by decide)⟩

/-- Whether the cast that `set_value` performs for this declared type fails
on this value.  `bool()` is total in Python, so no value fails the cast for
`boolean` and the boolean case of the claim is vacuous. -/
def coercionFails (field_type : String) (value : PyVal) : Bool :=
  if field_type = "integer" then !(pyInt value).isOk
  else if field_type = "float" then !(pyFloat value).isOk
  else false

/-- C3 — for a field of declared type integer/float/boolean, `set_value`
with a non-null raw value that cannot be cast to that type raises the
coercion error and stores no value: every slot of the row is left cleared. -/
theorem set_value_coercion_error (v : FieldValue) (value : PyVal) (field_type : String)
    (hft : field_type = "integer" ∨ field_type = "float" ∨ field_type = "boolean")
    (hnn : value ≠ .null)
    (hfail : coercionFails field_type value = true) :
    ∃ e, v.set_value field_type value = (some e, v.cleared) := by
  rcases hft with hft | hft | hft <;> subst hft
  · have : ∃ e, pyInt value = .error e := by
      revert hfail
      unfold coercionFails
      cases h : pyInt value <;> simp [Except.isOk, Except.toBool]
    obtain ⟨e, he⟩ := this
    refine ⟨e, ?_⟩
    cases value <;> simp_all [FieldValue.set_value]
  · have : ∃ e, pyFloat value = .error e := by
      revert hfail
      unfold coercionFails
      cases h : pyFloat value <;> simp [Except.isOk, Except.toBool]
    obtain ⟨e, he⟩ := this
    refine ⟨e, ?_⟩
    cases value <;> simp_all [FieldValue.set_value]
  · simp [coercionFails] at hfail

/-- C3 witness: non-numeric text into an `integer` field raises and leaves
the row cleared. -/
theorem set_value_coercion_error_witness :
    ∃ e, rowIntOnly.set_value ("integer") (.str ("abc")) = (some e, rowIntOnly.cleared) :=
  set_value_coercion_error rowIntOnly (.str ("abc")) "integer"
    (by decide) (by decide) (by decide)

/-- C4 — for every supported type and valid raw value of that type,
`set_value` stores the value in exactly the one matching typed slot with all
other slots cleared, and `get_value` then returns the value coerced to the
matching native type (ISO-8601 text for `date`); `set_value(None)` clears
all six slots, after which `get_value` returns `None` for every type tag. -/
theorem set_get_roundtrip :
    (∀ (v : FieldValue) (s : String),
      v.set_value ("string") (.str s) = (none, { v.cleared with value_text := some s }) ∧
      ((v.set_value ("string") (.str s)).2.get_value ("string")) = .str s) ∧
    (∀ (v : FieldValue) (value : PyVal) (n : Int),
      value ≠ .null → pyInt value = .ok n →
      v.set_value ("integer") value = (none, { v.cleared with value_int := some n }) ∧
      ((v.set_value ("integer") value).2.get_value ("integer")) = .int n) ∧
    (∀ (v : FieldValue) (value : PyVal) (q : Rat),
      value ≠ .null → pyFloat value = .ok q →
      v.set_value ("float") value = (none, { v.cleared with value_float := some q }) ∧
      ((v.set_value ("float") value).2.get_value ("float")) = .float q) ∧
    (∀ (v : FieldValue) (value : PyVal),
      value ≠ .null →
      v.set_value ("boolean") value = (none, { v.cleared with value_bool := some (pyBool value) }) ∧
      ((v.set_value ("boolean") value).2.get_value ("boolean")) = .bool (pyBool value)) ∧
    (∀ (v : FieldValue) (s : String) (d : PyDateTime),
      parseDate s = .ok d →
      v.set_value ("date") (.str s) = (none, { v.cleared with value_date := some d }) ∧
      ((v.set_value ("date") (.str s)).2.get_value ("date")) = .str d.iso) ∧
    (∀ (v : FieldValue) (d : PyDateTime),
      v.set_value ("date") (.date d) = (none, { v.cleared with value_date := some d }) ∧
      ((v.set_value ("date") (.date d)).2.get_value ("date")) = .str d.iso) ∧
    (∀ (v : FieldValue) (value : PyVal) (t : String),
      (t = "json" ∨ t = "array" ∨ t = "object") → value ≠ .null →
      v.set_value t value = (none, { v.cleared with value_json := some value }) ∧
      ((v.set_value t value).2.get_value t) = value) ∧
    (∀ (v : FieldValue) (t : String),
      v.set_value t .null = (none, v.cleared)) ∧
    (∀ (v : FieldValue) (t : String),
      (v.cleared).get_value t = .null) := by
  refine ⟨?_, ?_, ?_, ?_, ?_, ?_, ?_, ?_, ?_⟩
  · intro v s
    constructor <;> rfl
  · intro v value n hnn hok
    cases value <;> simp_all [FieldValue.set_value, FieldValue.get_value]
  · intro v value q hnn hok
    cases value <;> simp_all [FieldValue.set_value, FieldValue.get_value]
  · intro v value hnn
    cases value <;> simp_all [FieldValue.set_value, FieldValue.get_value]
  · intro v s d hok
    constructor <;> simp_all [FieldValue.set_value, FieldValue.get_value]
  · intro v d
    constructor <;> rfl
  · intro v value t ht hnn
    rcases ht with ht | ht | ht <;> subst ht <;> cases value <;>
      simp_all [FieldValue.set_value, FieldValue.get_value]
  · intro v t
    unfold FieldValue.set_value
    rfl
  · intro v t
    exact (get_value_total v.cleared t).2 (by simp [FieldValue.selectedSlotEmpty, FieldValue.cleared])

/-- C4 witness: numeric text stored under `integer` lands in `value_int`
only, and an ISO date string round-trips to its ISO-8601 text. -/
theorem set_get_roundtrip_witness :
    (rowIntOnly.set_value ("integer") (.str ("7"))
      = (none, { rowIntOnly.cleared with value_int := some 7 })) ∧
    ((rowIntOnly.set_value ("date") (.str ("2024-01-15"))).2.get_value ("date")
      = .str ("2024-01-15T00:00:00")) :=
  ⟨(set_get_roundtrip.2.1 rowIntOnly (.str ("7")) 7 (by decide) (by rfl)).1,
   (set_get_roundtrip.2.2.2.2.1 rowIntOnly ("2024-01-15") ⟨"2024-01-15T00:00:00"⟩ (by rfl)).2⟩

/-- C7 — `validate_type_change` reports the type-compatibility failure
exactly when the new type is not in the directed table's row for the old
type, and for supported types each row is the type itself plus
string/json/array/object, with integer also allowed to become float. -/
theorem validate_type_change_compat :
    (∀ (db : DB) (field_id : Nat) (old_type new_type : String),
      VError.incompatible old_type new_type ∈
          validate_type_change db field_id old_type new_type
        ↔ new_type ∉ TYPE_COMPATIBILITY old_type) ∧
    (∀ old_type ∈ SUPPORTED_TYPES, ∀ new_type ∈ SUPPORTED_TYPES,
      (new_type ∈ TYPE_COMPATIBILITY old_type ↔
        (new_type = old_type ∨ new_type ∈ (["string", "json", "array", "object"] : List String) ∨
          (old_type = "integer" ∧ new_type = "float")))) := by
  constructor
  · intro db field_id old_type new_type
    unfold validate_type_change
    by_cases h : new_type ∈ TYPE_COMPATIBILITY old_type
    · rw [if_neg (by simpa using h)]
      constructor
      · intro hmem
        exfalso
        revert hmem
        split
        · simp
        · dsimp only
          split_ifs <;> simp
      · intro hc
        exact absurd h hc
    · rw [if_pos h]
      simp [h]
  · decide

/-- C7 witness: integer→float is reachable in the table while
float→integer, string→integer and date→float are not. -/
theorem validate_type_change_compat_witness :
    ("float" ∈ TYPE_COMPATIBILITY ("integer")) ∧
    ("integer" ∉ TYPE_COMPATIBILITY ("float")) ∧
    ("integer" ∉ TYPE_COMPATIBILITY ("string")) ∧
    ("float" ∉ TYPE_COMPATIBILITY ("date")) :=
  ⟨(validate_type_change_compat.2 ("integer") (by decide) "float" (by decide)).mpr
      (by decide),
   fun hmem => absurd
     ((validate_type_change_compat.2 ("float") (by decide) "integer" (by decide)).mp hmem)
     (by decide),
   fun hmem => absurd
     ((validate_type_change_compat.2 ("string") (by decide) "integer" (by decide)).mp hmem)
     (by decide),
   fun hmem => absurd
     ((validate_type_change_compat.2 ("date") (by decide) "float" (by decide)).mp hmem)
     (by decide)⟩

/-- C9 — behavior at the failing input: `analyze_field_removal` never
returns the claimed report.  Because the module never imports `db`, the
non-null-count query raises `NameError` as soon as an active field is found
(here `dbSizeField`, whose `size` field has two stored non-null values);
only the field-not-found path returns, and what it returns is the error
dict, not a report. -/
theorem analyze_field_removal_raises :
    errorText (analyze_field_removal dbSizeField 1 ("size"))
      = some ("NameError: name db is not defined") ∧
    (analyze_field_removal dbPriceActive 1 ("size")).toOption.map errorText
      = some (some ("Field not found")) := by
  decide

/-- C6 — behavior of the statistics cache at the failing input: statistics
computed at t = 0 are still served from cache at t = 120 (belying the
claimed 60-second ttl; the ttl argument of `_put_in_cache` is ignored), the
recomputation at t = 120 returns the stale entry, and only after the default
300-second ttl (t = 301) is the entry evicted. -/
theorem stats_cache_default_ttl :
    (((get_schema_statistics dbSizeField {} 1 0).2.getFromCache ("stats:1") 120).1
      = some (.stats (get_schema_statistics dbSizeField {} 1 0).1)) ∧
    ((get_schema_statistics dbSizeField
        (get_schema_statistics dbSizeField {} 1 0).2 1 120).1.last_updated = 0) ∧
    (((get_schema_statistics dbSizeField {} 1 0).2.getFromCache ("stats:1") 301).1
      = none) := by
  decide

/-- C2 — behavior at the failing input: after soft-deleting `price`, adding
a new field with the same name passes the application-level check (which
only looks at active fields) but is rejected by the unfiltered
`uq_schema_field` unique constraint, so `add_field` raises instead of
succeeding. -/
theorem field_name_reuse_blocked :
    (remove_field dbPriceActive 1 ("price") 7 false).toOption.map (fun p =>
        (p.1, p.2.findActiveField 1 ("price"), (p.2.findDeletedField 1 ("price")).isSome,
         errorText (add_field p.2 1 ("price") "string" 7)))
      = some (true, none, true,
          some ("Failed to add field: IntegrityError: UNIQUE constraint failed: schema_fields.schema_id, schema_fields.field_name")) := by
  decide

/-- C8 counterexample: `modify_field` called with `new_constraints` equal to
the field's current constraints (and nothing else supplied) still appends a
ChangeLog entry and a new SchemaVersion, refuting the claim that such a call
is a no-op. -/
theorem modify_field_equal_constraints_logs :
    (modify_field dbSizeField 1 ("size") 7 none none (some consMin0) none).toOption.map
        (fun p => (p.2.change_logs.length, p.2.versions.length))
      = some (dbSizeField.change_logs.length + 1, dbSizeField.versions.length + 1) := by
  decide

/-- C8 (amended) — `modify_field` writes no ChangeLog and no SchemaVersion
(and leaves the database unchanged) exactly in the cases the source treats
as "nothing changed": `new_type` absent, empty, or equal to the current
type; `new_required` absent or equal to the current flag; and
`new_constraints` and `new_description` both absent.  (Supplying constraints
or description always counts as a change, even when equal.) -/
theorem modify_field_noop (db : DB) (schema_id : Nat) (field_name : String)
    (user_id : Nat) (new_type : Option String) (new_required : Option Bool)
    (schema : SchemaModel) (field : SchemaField)
    (hs : db.getSchema schema_id = some schema)
    (hf : db.findActiveField schema_id field_name = some field)
    (ht : ∀ t, new_type = some t → t = "" ∨ t = field.field_type)
    (hr : ∀ r, new_required = some r → r = field.is_required) :
    modify_field db schema_id field_name user_id new_type new_required none none
      = .ok (field, db) := by
  obtain ⟨fid, fsid, fnm, fty, freq, fdv, fcs, fds, fdel, ford⟩ := field
  cases hnt : new_type with
  | none =>
      cases hnr : new_required with
      | none =>
          unfold modify_field
          rw [hs, hf]
          rfl
      | some r =>
          have hre : r = freq := hr r hnr
          subst hre
          unfold modify_field
          rw [hs, hf]
          cases r <;> rfl
  | some t =>
      rcases ht t hnt with h | h <;> subst h <;> unfold modify_field <;> rw [hs, hf] <;>
        dsimp only <;> rw [if_neg (by simp)]
      · cases hnr : new_required with
        | none => rfl
        | some r =>
            have hre : r = freq := hr r hnr
            subst hre
            cases r <;> rfl
      · cases hnr : new_required with
        | none => rfl
        | some r =>
            have hre : r = freq := hr r hnr
            subst hre
            cases r <;> rfl

/-- C8 witness: requesting `required := false` on a field already not
required changes nothing and writes nothing. -/
theorem modify_field_noop_witness :
    modify_field dbSizeField 1 ("size") 7 none (some false) none none
      = .ok (sizeFieldRow, dbSizeField) :=
  modify_field_noop dbSizeField 1 ("size") 7 none (some false) schemaS sizeFieldRow
    (by rfl) (by rfl) (fun _ h => nomatch h) (by decide)

/-- A bind whose continuation always raises can never return normally. -/
theorem exceptBind_error_eq_ok {x : Except e a} {g : a → e} {b : b'} :
    (x >>= fun v => (Except.error (g v) : Except e b')) = Except.ok b → False := by
  cases x <;> intro h <;> exact nomatch h

/-- C5 (amended) — once the pre-checks pass (schema, target version and a
latest version exist, and the target is not already current), `rollback`
never raises: every exception inside the transaction — the injected
commit/database error included — is caught, the session is rolled back
(failure results carry the original database state unchanged), and a
`success := false` result with the error message is returned.  Only the
pre-check not-found `ValueError`s raise. -/
theorem rollback_failure_contained (db : DB) (schema_id : Nat)
    (target_version : Int) (user_id : Nat) (preserve_data : Bool)
    (commit_error : Option String)
    (schema : SchemaModel) (target current : SchemaVersion)
    (hs : db.getSchema schema_id = some schema)
    (ht : db.findVersion schema_id target_version = some target)
    (hc : db.latestVersion schema_id = some current)
    (hne : current.version_number ≠ target_version) :
    ((rollback db schema_id target_version user_id preserve_data commit_error).isOk
        = true) ∧
    (∀ res db',
      rollback db schema_id target_version user_id preserve_data commit_error
          = .ok (res, db') →
      res.success = false → res.error.isSome ∧ db' = db) ∧
    (∀ e, commit_error = some e →
      ∀ res db',
        rollback db schema_id target_version user_id preserve_data commit_error
            = .ok (res, db') →
        res.success = false ∧ res.error.isSome ∧ db' = db) := by
  refine ⟨?_, ?_, ?_⟩
  · unfold rollback
    rw [hs, ht, hc]
    dsimp only
    rw [if_neg hne]
    split <;> rfl
  · intro res db' h hfail
    unfold rollback at h
    rw [hs, ht, hc] at h
    dsimp only at h
    rw [if_neg hne] at h
    split at h
    · rename_i heq
      obtain ⟨h1, h2⟩ := Prod.mk.injEq .. ▸ (Except.ok.injEq .. ▸ h)
      rw [← h1] at hfail
      simp at hfail
    · rename_i e ch heq
      obtain ⟨h1, h2⟩ := Prod.mk.injEq .. ▸ (Except.ok.injEq .. ▸ h)
      constructor
      · rw [← h1]
        rfl
      · exact h2.symm
  · intro e hce res db' h
    subst hce
    unfold rollback at h
    rw [hs, ht, hc] at h
    dsimp only at h
    rw [if_neg hne] at h
    split at h
    · rename_i heq
      exact absurd heq (fun hh => exceptBind_error_eq_ok hh)
    · rename_i e' ch heq
      obtain ⟨h1, h2⟩ := Prod.mk.injEq .. ▸ (Except.ok.injEq .. ▸ h)
      refine ⟨?_, ?_, h2.symm⟩
      · rw [← h1]
      · rw [← h1]
        rfl

/-- C5 counterexample: an injected infrastructure error (lost database
connection at commit) does NOT propagate to the caller — `rollback` returns
normally with a `success := false` result carrying the message, the state
untouched, refuting the claim that unexpected infrastructure errors are
raised. -/
theorem rollback_infra_error_not_raised :
    (rollback dbPriceSoftDeleted 1 1 9 true
        (some ("OperationalError: connection lost"))).toOption.map
        (fun p => (p.1.success, p.1.error, p.2))
      = some (false, some ("OperationalError: connection lost"), dbPriceSoftDeleted) := by
  decide

/-- C5 witness: the amended containment statement instantiated on the
concrete soft-deleted-price state with an injected commit failure. -/
theorem rollback_failure_contained_witness :
    ((rollback dbPriceSoftDeleted 1 1 9 true (some ("DB down"))).isOk = true) ∧
    (∀ res db',
      rollback dbPriceSoftDeleted 1 1 9 true (some ("DB down")) = .ok (res, db') →
      res.success = false → res.error.isSome ∧ db' = dbPriceSoftDeleted) ∧
    (∀ e, (some ("DB down") : Option String) = some e →
      ∀ res db',
        rollback dbPriceSoftDeleted 1 1 9 true (some ("DB down")) = .ok (res, db') →
        res.success = false ∧ res.error.isSome ∧ db' = dbPriceSoftDeleted) :=
  rollback_failure_contained dbPriceSoftDeleted 1 1 9 true (some ("DB down"))
    { id := 1, name := "S", asset_type_id := 1 } versionRowActive versionRowDeleted
    (by rfl) (by rfl) (by rfl) (by decide)

/-- C1 counterexample: with `price` soft-deleted (current snapshot still
lists it, flagged deleted) and target version 1 where it was active,
`rollback` succeeds with an empty change list and leaves the field
soft-deleted — it is not restored to active, refuting the claim for the
soft-deleted case. -/
theorem rollback_soft_deleted_not_restored :
    (rollback dbPriceSoftDeleted 1 1 7 true none).toOption.map
        (fun p => (p.1.success, p.1.changes, p.2.findActiveField 1 ("price"),
                   p.2.findDeletedField 1 ("price")))
      = some (true, [], none, some priceRowDeleted) := by
  decide

/-- An element satisfying `Q` survives `updateFirst` when `g` preserves
`Q`. -/
theorem exists_mem_updateFirst {α} {p : α → Bool} {g : α → α} {Q : α → Prop}
    (hg : ∀ x, Q x → Q (g x)) :
    ∀ {l : List α}, (∃ x ∈ l, Q x) → ∃ y ∈ updateFirst p g l, Q y := by
  intro l
  induction l with
  | nil => simp
  | cons a l ih =>
      rintro ⟨x, hx, hQ⟩
      by_cases hpa : p a
      · rcases List.mem_cons.mp hx with rfl | hx'
        · exact ⟨g x, by simp [updateFirst, hpa], hg x hQ⟩
        · exact ⟨x, by simp [updateFirst, hpa, hx'], hQ⟩
      · rcases List.mem_cons.mp hx with rfl | hx'
        · exact ⟨x, by simp [updateFirst, hpa], hQ⟩
        · obtain ⟨y, hy, hQy⟩ := ih ⟨x, hx', hQ⟩
          exact ⟨y, by simp [updateFirst, hpa, hy], hQy⟩

/-- Embeds `updateFirst` does not change whether some element satisfies `Q` when
`g` preserves `Q` on the elements it may touch. -/
theorem exists_updateFirst_iff {α} {p : α → Bool} {g : α → α} {Q : α → Prop}
    (h : ∀ x, p x = true → (Q x ↔ Q (g x))) :
    ∀ {l : List α}, ((∃ y ∈ updateFirst p g l, Q y) ↔ ∃ x ∈ l, Q x) := by
  intro l
  induction l with
  | nil => simp [updateFirst]
  | cons a l ih =>
      by_cases hpa : p a
      · simp only [updateFirst, hpa, if_pos]
        constructor
        · rintro ⟨y, hy, hQ⟩
          rcases List.mem_cons.mp hy with rfl | hy'
          · exact ⟨a, List.mem_cons_self .., (h a hpa).mpr hQ⟩
          · exact ⟨y, List.mem_cons_of_mem _ hy', hQ⟩
        · rintro ⟨x, hx, hQ⟩
          rcases List.mem_cons.mp hx with rfl | hx'
          · exact ⟨g x, List.mem_cons_self .., (h x hpa).mp hQ⟩
          · exact ⟨x, List.mem_cons_of_mem _ hx', hQ⟩
      · simp only [updateFirst, hpa, if_neg, Bool.false_eq_true, not_false_iff]
        constructor
        · rintro ⟨y, hy, hQ⟩
          rcases List.mem_cons.mp hy with rfl | hy'
          · exact ⟨y, List.mem_cons_self .., hQ⟩
          · obtain ⟨x, hx, hQx⟩ := ih.mp ⟨y, hy', hQ⟩
            exact ⟨x, List.mem_cons_of_mem _ hx, hQx⟩
        · rintro ⟨x, hx, hQ⟩
          rcases List.mem_cons.mp hx with rfl | hx'
          · exact ⟨x, List.mem_cons_self .., hQ⟩
          · obtain ⟨y, hy, hQy⟩ := ih.mpr ⟨x, hx', hQ⟩
            exact ⟨y, List.mem_cons_of_mem _ hy, hQy⟩

/-- An element satisfying `Q` survives `removeFirst` when the removed
element cannot satisfy `Q`. -/
theorem exists_mem_removeFirst {α} {p : α → Bool} {Q : α → Prop}
    (h : ∀ x, p x = true → ¬ Q x) :
    ∀ {l : List α}, (∃ x ∈ l, Q x) → ∃ y ∈ removeFirst p l, Q y := by
  intro l
  induction l with
  | nil => simp
  | cons a l ih =>
      rintro ⟨x, hx, hQ⟩
      by_cases hpa : p a
      · rcases List.mem_cons.mp hx with rfl | hx'
        · exact absurd hQ (h x hpa)
        · exact ⟨x, by simp [removeFirst, hpa, hx'], hQ⟩
      · rcases List.mem_cons.mp hx with rfl | hx'
        · exact ⟨x, by simp [removeFirst, hpa], hQ⟩
        · obtain ⟨y, hy, hQy⟩ := ih ⟨x, hx', hQ⟩
          exact ⟨y, by simp [removeFirst, hpa, hy], hQy⟩

/-- Membership in the dict-key list built by `dictKeys`, generalized over
the accumulator. -/
theorem mem_dictKeys_foldl (fs : List SnapField) :
    ∀ (ks : List String) (m : String),
      m ∈ fs.foldl (fun ks f => if f.name ∈ ks then ks else ks ++ [f.name]) ks ↔
        m ∈ ks ∨ ∃ f ∈ fs, f.name = m := by
  induction fs with
  | nil => simp
  | cons a fs ih =>
      intro ks m
      rw [List.foldl_cons, ih]
      by_cases ha : a.name ∈ ks
      · simp only [ha, if_pos]
        constructor
        · rintro (hk | hf)
          · exact Or.inl hk
          · exact Or.inr (by obtain ⟨f, hf1, hf2⟩ := hf; exact ⟨f, by simp [hf1], hf2⟩)
        · rintro (hk | ⟨f, hf1, hf2⟩)
          · exact Or.inl hk
          · rcases List.mem_cons.mp hf1 with rfl | hf1'
            · exact Or.inl (hf2 ▸ ha)
            · exact Or.inr ⟨f, hf1', hf2⟩
      · simp only [ha, if_neg, not_false_iff]
        rw [List.mem_append, List.mem_singleton]
        constructor
        · rintro ((hk | rfl) | hf)
          · exact Or.inl hk
          · exact Or.inr ⟨a, List.mem_cons_self .., rfl⟩
          · exact Or.inr (by obtain ⟨f, hf1, hf2⟩ := hf; exact ⟨f, by simp [hf1], hf2⟩)
        · rintro (hk | ⟨f, hf1, hf2⟩)
          · exact Or.inl (Or.inl hk)
          · rcases List.mem_cons.mp hf1 with rfl | hf1'
            · exact Or.inl (Or.inr hf2.symm)
            · exact Or.inr ⟨f, hf1', hf2⟩

/-- A name is a dict key of a snapshot's field list iff some field entry
carries it. -/
theorem mem_dictKeys {fs : List SnapField} {m : String} :
    m ∈ dictKeys fs ↔ ∃ f ∈ fs, f.name = m := by
  unfold dictKeys
  rw [mem_dictKeys_foldl]
  simp

/-- The key list of a Python dict has no duplicates, generalized over the
accumulator. -/
theorem dictKeys_foldl_nodup (fs : List SnapField) :
    ∀ ks : List String, ks.Nodup →
      (fs.foldl (fun ks f => if f.name ∈ ks then ks else ks ++ [f.name]) ks).Nodup := by
  induction fs with
  | nil => exact fun ks h => h
  | cons a fs ih =>
      intro ks hks
      rw [List.foldl_cons]
      by_cases ha : a.name ∈ ks
      · rw [if_pos ha]
        exact ih ks hks
      · rw [if_neg ha]
        refine ih _ ?_
        simp [List.nodup_append, hks, ha]

/-- Embeds `dictKeys` never repeats a name. -/
theorem dictKeys_nodup (fs : List SnapField) : (dictKeys fs).Nodup :=
  dictKeys_foldl_nodup fs [] List.nodup_nil

/-- A dict key always has a first matching snapshot entry. -/
theorem snapFind_isSome_of_mem_dictKeys {fs : List SnapField} {m : String}
    (h : m ∈ dictKeys fs) : (snapFind fs m).isSome := by
  obtain ⟨f, hf, hname⟩ := mem_dictKeys.mp h
  unfold snapFind
  exact List.find?_isSome.mpr ⟨f, hf, by simp [hname]⟩

/-- Embeds `updateFirst` applies `g` to some element when one satisfies `p`, so a
property guaranteed by `g` on `p`-elements holds of some member of the
result. -/
theorem exists_mem_updateFirst_of_applied {α} {p : α → Bool} {g : α → α} {Q : α → Prop}
    (hq : ∀ x, p x = true → Q (g x)) :
    ∀ {l : List α}, (∃ x ∈ l, p x = true) → ∃ y ∈ updateFirst p g l, Q y := by
  intro l
  induction l with
  | nil => simp
  | cons a l ih =>
      rintro ⟨x, hx, hpx⟩
      by_cases hpa : p a
      · exact ⟨g a, by simp [updateFirst, hpa], hq a hpa⟩
      · rcases List.mem_cons.mp hx with rfl | hx'
        · exact absurd hpx hpa
        · obtain ⟨y, hy, hQy⟩ := ih ⟨x, hx', hpx⟩
          exact ⟨y, by simp [updateFirst, hpa, hy], hQy⟩

/-- De Morgan for list membership, in the form the restorability proofs
use. -/
theorem forall_mem_not_iff {α} {l : List α} {R : α → Prop} :
    (∀ x ∈ l, ¬ R x) ↔ ¬ ∃ x ∈ l, R x := by
  constructor
  · rintro h ⟨x, hx, hR⟩
    exact h x hx hR
  · intro h x hx hR
    exact h ⟨x, hx, hR⟩

/-- Behavior of one restore step of `rollback`: on a restorable name it
returns normally; if the target snapshot lists the name, an active row with
that name exists afterwards; active rows (of any name) are never lost; and
restorability of every other name is untouched. -/
theorem restoreOne_spec (schema_id : Nat) (tsnap : Snapshot) (db : DB)
    (ch : List String) (m : String) (hok : db.restorable schema_id m) :
    ∃ db' ch', rollbackRestoreOne schema_id tsnap (db, ch) m = .ok (db', ch') ∧
      ((snapFind tsnap.fields m).isSome → db'.activeFieldExists schema_id m) ∧
      (∀ n, db.activeFieldExists schema_id n → db'.activeFieldExists schema_id n) ∧
      (∀ n, n ≠ m → (db'.restorable schema_id n ↔ db.restorable schema_id n)) := by
  cases hsf : snapFind tsnap.fields m with
  | none =>
      have hstep : rollbackRestoreOne schema_id tsnap (db, ch) m = .ok (db, ch) := by
        simp only [rollbackRestoreOne, hsf]
      exact ⟨db, ch, hstep, by simp [hsf], fun n h => h, fun n _ => Iff.rfl⟩
  | some fd =>
      have hfdname : fd.name = m := by simpa using List.find?_some hsf
      cases hdel : db.findDeletedField schema_id m with
      | some d =>
          have hstep : rollbackRestoreOne schema_id tsnap (db, ch) m
              = .ok ({ db with fields := (updateFirst
                  (fun f => f.schema_id = schema_id ∧ f.field_name = m ∧
                    f.is_deleted = true)
                  (fun f => { f with is_deleted := false }) db.fields) },
                ch ++ ["Restored field " ++ m]) := by
            simp only [rollbackRestoreOne, hsf, hdel]
          refine ⟨_, _, hstep, ?_, ?_, ?_⟩
          · intro _
            unfold DB.activeFieldExists
            refine exists_mem_updateFirst_of_applied ?_ ?_
            · intro x hx
              simp only [decide_eq_true_eq] at hx
              exact ⟨hx.1, hx.2.1, rfl⟩
            · have h1 : (db.findDeletedField schema_id m).isSome := by rw [hdel]; rfl
              unfold DB.findDeletedField at h1
              obtain ⟨x, hx, hpx⟩ := List.find?_isSome.mp h1
              exact ⟨x, hx, hpx⟩
          · intro n h
            unfold DB.activeFieldExists at h ⊢
            refine exists_mem_updateFirst ?_ h
            intro x hx
            exact ⟨hx.1, hx.2.1, rfl⟩
          · intro n hn
            have hcond1 : ∀ x : SchemaField,
                (decide (x.schema_id = schema_id ∧ x.field_name = m ∧
                  x.is_deleted = true)) = true →
                ((x.schema_id = schema_id ∧ x.field_name = n ∧ x.is_deleted = true) ↔
                  (({ x with is_deleted := false } : SchemaField).schema_id = schema_id ∧
                   ({ x with is_deleted := false } : SchemaField).field_name = n ∧
                   ({ x with is_deleted := false } : SchemaField).is_deleted = true)) := by
              intro x hx
              simp only [decide_eq_true_eq] at hx
              constructor
              · rintro ⟨-, h2, -⟩
                exact absurd (hx.2.1.symm.trans h2) (Ne.symm hn)
              · rintro ⟨-, -, h3⟩
                exact absurd h3 (by simp)
            have hcond2 : ∀ x : SchemaField,
                (decide (x.schema_id = schema_id ∧ x.field_name = m ∧
                  x.is_deleted = true)) = true →
                ((x.schema_id = schema_id ∧ x.field_name = n) ↔
                  (({ x with is_deleted := false } : SchemaField).schema_id = schema_id ∧
                   ({ x with is_deleted := false } : SchemaField).field_name = n)) := by
              intro x hx
              simp only [decide_eq_true_eq] at hx
              constructor
              · rintro ⟨-, h2⟩
                exact absurd (hx.2.1.symm.trans h2) (Ne.symm hn)
              · rintro ⟨-, h2⟩
                exact absurd (hx.2.1.symm.trans h2) (Ne.symm hn)
            unfold DB.restorable DB.findDeletedField
            constructor
            · rintro (h1 | h2)
              · refine Or.inl ?_
                rw [List.find?_isSome] at h1 ⊢
                obtain ⟨x, hx, hpx⟩ := h1
                simp only [decide_eq_true_eq] at hpx
                have := (exists_updateFirst_iff
                  (Q := fun y : SchemaField => y.schema_id = schema_id ∧
                    y.field_name = n ∧ y.is_deleted = true) hcond1).mp ⟨x, hx, hpx⟩
                obtain ⟨y, hy, hpy⟩ := this
                exact ⟨y, hy, by simpa using hpy⟩
              · refine Or.inr ?_
                rw [forall_mem_not_iff] at h2 ⊢
                intro hex
                exact h2 ((exists_updateFirst_iff hcond2).mpr hex)
            · rintro (h1 | h2)
              · refine Or.inl ?_
                rw [List.find?_isSome] at h1 ⊢
                obtain ⟨x, hx, hpx⟩ := h1
                simp only [decide_eq_true_eq] at hpx
                have := (exists_updateFirst_iff
                  (Q := fun y : SchemaField => y.schema_id = schema_id ∧
                    y.field_name = n ∧ y.is_deleted = true) hcond1).mpr ⟨x, hx, hpx⟩
                obtain ⟨y, hy, hpy⟩ := this
                exact ⟨y, hy, by simpa using hpy⟩
              · refine Or.inr ?_
                rw [forall_mem_not_iff] at h2 ⊢
                intro hex
                exact h2 ((exists_updateFirst_iff hcond2).mp hex)
      | none =>
          have hnorow : ∀ f ∈ db.fields,
              ¬(f.schema_id = schema_id ∧ f.field_name = m) := by
            rcases hok with h1 | h2
            · rw [hdel] at h1
              exact absurd h1 (by simp)
            · exact h2
          have hany : db.fields.any
              (fun g => g.schema_id = schema_id ∧ g.field_name = fd.name) = false := by
            rw [List.any_eq_false]
            intro x hx
            simp only [decide_eq_true_eq, hfdname]
            exact hnorow x hx
          have hstep : rollbackRestoreOne schema_id tsnap (db, ch) m
              = .ok ({ db with fields := db.fields ++
                  [{ id := 1 + db.fields.foldl (fun mx f => max mx f.id) 0
                     schema_id := schema_id
                     field_name := fd.name
                     field_type := fd.type
                     is_required := fd.required
                     default_value := fd.default
                     constraints := fd.constraints
                     description := fd.description
                     is_deleted := false
                     order_index := fd.order }] },
                ch ++ ["Recreated field " ++ m]) := by
            simp only [rollbackRestoreOne, hsf, hdel, DB.insertField, hany,
              Bool.false_eq_true, if_false]
          refine ⟨_, _, hstep, ?_, ?_, ?_⟩
          · intro _
            exact ⟨_, List.mem_append_right _ (List.mem_singleton_self _),
              rfl, hfdname, rfl⟩
          · rintro n ⟨f, hf, hp⟩
            exact ⟨f, List.mem_append_left _ hf, hp⟩
          · intro n hn
            have hnewname : fd.name ≠ n := fun h =>
              (Ne.symm hn) (hfdname.symm.trans h)
            unfold DB.restorable DB.findDeletedField
            constructor
            · rintro (h1 | h2)
              · refine Or.inl ?_
                rw [List.find?_isSome] at h1 ⊢
                obtain ⟨x, hx, hpx⟩ := h1
                rcases List.mem_append.mp hx with hx' | hx'
                · exact ⟨x, hx', hpx⟩
                · rw [List.mem_singleton] at hx'
                  subst hx'
                  have hp := of_decide_eq_true hpx
                  exact absurd hp.2.1 hnewname
              · refine Or.inr ?_
                intro f hf
                exact h2 f (List.mem_append_left _ hf)
            · rintro (h1 | h2)
              · refine Or.inl ?_
                rw [List.find?_isSome] at h1 ⊢
                obtain ⟨x, hx, hpx⟩ := h1
                exact ⟨x, List.mem_append_left _ hx, hpx⟩
              · refine Or.inr ?_
                intro f hf
                rcases List.mem_append.mp hf with hf' | hf'
                · exact h2 f hf'
                · rw [List.mem_singleton] at hf'
                  subst hf'
                  exact fun hc => hnewname hc.2

/-- The whole restore phase of `rollback` succeeds on a list of distinct
restorable names present in the target snapshot, ends with an active row
for each of them, and loses no pre-existing active row. -/
theorem restore_fold_spec (schema_id : Nat) (tsnap : Snapshot) :
    ∀ (l : List String) (db : DB) (ch : List String),
      l.Nodup →
      (∀ m ∈ l, db.restorable schema_id m) →
      (∀ m ∈ l, (snapFind tsnap.fields m).isSome) →
      ∃ db' ch',
        List.foldlM (rollbackRestoreOne schema_id tsnap) (db, ch) l = .ok (db', ch') ∧
        (∀ m ∈ l, db'.activeFieldExists schema_id m) ∧
        (∀ n, db.activeFieldExists schema_id n → db'.activeFieldExists schema_id n) := by
  intro l
  induction l with
  | nil =>
      intro db ch _ _ _
      exact ⟨db, ch, rfl, by simp, fun n h => h⟩
  | cons a l ih =>
      intro db ch hnd hok hsf
      obtain ⟨db1, ch1, hstep, hacta, hpres1, hrest1⟩ :=
        restoreOne_spec schema_id tsnap db ch a (hok a (List.mem_cons_self ..))
      have hnotmem : a ∉ l := (List.nodup_cons.mp hnd).1
      obtain ⟨db', ch', hfold, hactl, hpres2⟩ := ih db1 ch1 (List.nodup_cons.mp hnd).2
        (fun m hm => (hrest1 m (fun he => hnotmem (he ▸ hm))).mpr
          (hok m (List.mem_cons_of_mem _ hm)))
        (fun m hm => hsf m (List.mem_cons_of_mem _ hm))
      refine ⟨db', ch', ?_, ?_, fun n h => hpres2 n (hpres1 n h)⟩
      · rw [List.foldlM_cons, hstep]
        exact hfold
      · intro m hm
        rcases List.mem_cons.mp hm with rfl | hm'
        · exact hpres2 m (hacta (hsf m (List.mem_cons_self ..)))
        · exact hactl m hm'

/-- One removal step of `rollback` never deletes an active row of a
different name. -/
theorem removeOne_preserves (schema_id : Nat) (preserve_data : Bool)
    (st : DB × List String) (m n : String) (hne : m ≠ n)
    (h : st.1.activeFieldExists schema_id n) :
    (rollbackRemoveOne schema_id preserve_data st m).1.activeFieldExists schema_id n := by
  obtain ⟨db, ch⟩ := st
  unfold rollbackRemoveOne
  dsimp only
  cases hfa : db.findActiveField schema_id m with
  | none =>
      simp only [hfa]
      exact h
  | some field =>
      simp only [hfa]
      by_cases hp : preserve_data
      · simp only [hp, if_pos]
        unfold DB.activeFieldExists at h ⊢
        refine (exists_updateFirst_iff ?_).mpr h
        intro x hx
        have hx' := of_decide_eq_true hx
        constructor
        · rintro ⟨-, h2, -⟩
          exact absurd (hx'.2.1.symm.trans h2) hne
        · rintro ⟨-, h2, -⟩
          exact absurd (hx'.2.1.symm.trans h2) hne
      · simp only [hp, if_neg, Bool.false_eq_true, not_false_iff]
        unfold DB.activeFieldExists at h ⊢
        refine exists_mem_removeFirst ?_ h
        intro x hx
        have hx' := of_decide_eq_true hx
        rintro ⟨-, h2, -⟩
        exact absurd (hx'.2.1.symm.trans h2) hne

/-- The removal phase of `rollback` preserves an active row whose name is
not on the removal list. -/
theorem remove_fold_preserves (schema_id : Nat) (preserve_data : Bool) (n : String) :
    ∀ (l : List String) (st : DB × List String),
      (∀ m ∈ l, m ≠ n) →
      st.1.activeFieldExists schema_id n →
      (l.foldl (rollbackRemoveOne schema_id preserve_data) st).1.activeFieldExists
        schema_id n := by
  intro l
  induction l with
  | nil => exact fun st _ h => h
  | cons a l ih =>
      intro st hne h
      rw [List.foldl_cons]
      exact ih _ (fun m hm => hne m (List.mem_cons_of_mem _ hm))
        (removeOne_preserves schema_id preserve_data st a n
          (hne a (List.mem_cons_self ..)) h)

/-- One modified-field step of `rollback` overwrites attributes but never
the name, schema or soft-delete flag, so active rows survive it. -/
theorem modifyOne_preserves (schema_id : Nat) (tsnap : Snapshot)
    (st : DB × List String) (entry : String × List String) (n : String)
    (h : st.1.activeFieldExists schema_id n) :
    (rollbackModifyOne schema_id tsnap st entry).1.activeFieldExists schema_id n := by
  obtain ⟨db, ch⟩ := st
  unfold rollbackModifyOne
  dsimp only
  cases hfa : db.findActiveField schema_id entry.1 with
  | none =>
      simp only [hfa]
      exact h
  | some field =>
      simp only [hfa]
      cases hsf : snapFind tsnap.fields entry.1 with
      | none =>
          simp only [hsf]
          exact h
      | some tf =>
          simp only [hsf]
          unfold DB.activeFieldExists at h ⊢
          refine exists_mem_updateFirst ?_ h
          intro x hx
          exact ⟨hx.1, hx.2.1, hx.2.2⟩

/-- The modified-fields phase of `rollback` preserves every active row. -/
theorem modify_fold_preserves (schema_id : Nat) (tsnap : Snapshot) (n : String) :
    ∀ (l : List (String × List String)) (st : DB × List String),
      st.1.activeFieldExists schema_id n →
      (l.foldl (rollbackModifyOne schema_id tsnap) st).1.activeFieldExists schema_id n := by
  intro l
  induction l with
  | nil => exact fun st h => h
  | cons a l ih =>
      intro st h
      rw [List.foldl_cons]
      exact ih _ (modifyOne_preserves schema_id tsnap st a n h)

/-- C1 (amended) — rollback restores exactly the fields whose NAME is absent
from the current (latest) snapshot and present in the target snapshot: for
such a name, when every diff-restored name is restorable (a soft-deleted row
exists to un-delete, or no row blocks a fresh insert), `rollback` succeeds
and leaves an active field with that name — un-deleted if a soft-deleted row
existed, else recreated from the target snapshot.  (A field that is merely
soft-deleted but still listed, flagged deleted, in the current snapshot is
not reported as "added" by the diff and is left soft-deleted; see the
counterexample.) -/
theorem rollback_restores_missing_field (db : DB) (schema_id : Nat)
    (target_version : Int) (user_id : Nat) (preserve_data : Bool)
    (schema : SchemaModel) (target current : SchemaVersion) (name : String)
    (hs : db.getSchema schema_id = some schema)
    (ht : db.findVersion schema_id target_version = some target)
    (hc : db.latestVersion schema_id = some current)
    (hne : current.version_number ≠ target_version)
    (hmem : name ∈ dictKeys target.schema_snapshot.fields)
    (hnot : name ∉ dictKeys current.schema_snapshot.fields)
    (hok : ∀ m ∈ (calculate_diff current.schema_snapshot
        target.schema_snapshot).added_fields, db.restorable schema_id m) :
    ∃ res db',
      rollback db schema_id target_version user_id preserve_data none
        = .ok (res, db') ∧
      res.success = true ∧ db'.activeFieldExists schema_id name := by
  have haddedeq : (calculate_diff current.schema_snapshot
      target.schema_snapshot).added_fields
      = (dictKeys target.schema_snapshot.fields).filter
          (fun n => n ∉ dictKeys current.schema_snapshot.fields) := rfl
  have hnd : ((calculate_diff current.schema_snapshot
      target.schema_snapshot).added_fields).Nodup := by
    rw [haddedeq]
    exact (dictKeys_nodup _).filter _
  have hmemadded : name ∈ (calculate_diff current.schema_snapshot
      target.schema_snapshot).added_fields := by
    rw [haddedeq]
    exact List.mem_filter.mpr ⟨hmem, by simpa using hnot⟩
  have hsfa : ∀ m ∈ (calculate_diff current.schema_snapshot
      target.schema_snapshot).added_fields,
      (snapFind target.schema_snapshot.fields m).isSome := by
    intro m hm
    rw [haddedeq] at hm
    exact snapFind_isSome_of_mem_dictKeys (List.mem_of_mem_filter hm)
  obtain ⟨db1, ch1, hfold, hact, hpres⟩ :=
    restore_fold_spec schema_id target.schema_snapshot
      ((calculate_diff current.schema_snapshot target.schema_snapshot).added_fields)
      db [] hnd hok hsfa
  have hrn : ∀ m ∈ (calculate_diff current.schema_snapshot
      target.schema_snapshot).removed_fields, m ≠ name := by
    intro m hm heq
    subst heq
    have : m ∈ dictKeys current.schema_snapshot.fields :=
      List.mem_of_mem_filter hm
    exact hnot this
  have hactive1 : db1.activeFieldExists schema_id name := hact name hmemadded
  have hactive2 := remove_fold_preserves schema_id preserve_data name
    ((calculate_diff current.schema_snapshot target.schema_snapshot).removed_fields)
    (db1, ch1) hrn hactive1
  have hactive3 := modify_fold_preserves schema_id target.schema_snapshot name
    ((calculate_diff current.schema_snapshot target.schema_snapshot).modified_fields)
    (List.foldl (rollbackRemoveOne schema_id preserve_data) (db1, ch1)
      (calculate_diff current.schema_snapshot target.schema_snapshot).removed_fields)
    hactive2
  have hroll : rollback db schema_id target_version user_id preserve_data none
      = .ok
        ({ success := true
           message := some ("Successfully rolled back to version " ++
             toString target_version)
           from_version := some current.version_number
           to_version := some target_version
           changes := (List.foldl (rollbackModifyOne schema_id target.schema_snapshot)
             (List.foldl (rollbackRemoveOne schema_id preserve_data) (db1, ch1)
               (calculate_diff current.schema_snapshot
                 target.schema_snapshot).removed_fields)
             (calculate_diff current.schema_snapshot
               target.schema_snapshot).modified_fields).2 },
         { (List.foldl (rollbackModifyOne schema_id target.schema_snapshot)
             (List.foldl (rollbackRemoveOne schema_id preserve_data) (db1, ch1)
               (calculate_diff current.schema_snapshot
                 target.schema_snapshot).removed_fields)
             (calculate_diff current.schema_snapshot
               target.schema_snapshot).modified_fields).1 with
           change_logs := (List.foldl (rollbackModifyOne schema_id target.schema_snapshot)
             (List.foldl (rollbackRemoveOne schema_id preserve_data) (db1, ch1)
               (calculate_diff current.schema_snapshot
                 target.schema_snapshot).removed_fields)
             (calculate_diff current.schema_snapshot
               target.schema_snapshot).modified_fields).1.change_logs ++
             [{ schema_id := schema_id
                change_type := "rollback"
                description := "Rolled back from v" ++
                  toString current.version_number ++ " to v" ++
                  toString target_version
                changed_by := user_id }] }) := by
    unfold rollback
    rw [hs, ht, hc]
    dsimp only
    rw [if_neg hne]
    rw [hfold]
    rfl
  exact ⟨_, _, hroll, rfl, hactive3⟩

/-- C1 witness: with `price` absent from the latest snapshot and a
soft-deleted row available, rolling back to version 1 re-activates
`price`. -/
theorem rollback_restores_missing_field_witness :
    ∃ res db', rollback dbPriceMissing 1 1 7 true none = .ok (res, db') ∧
      res.success = true ∧ db'.activeFieldExists 1 ("price") :=
  rollback_restores_missing_field dbPriceMissing 1 1 7 true
    { id := 1, name := "S", asset_type_id := 1 } versionRowActive versionRowEmpty
    "price" (by rfl) (by rfl) (by rfl) (by decide) (by decide) (by decide)
    (by decide)
